import Mathlib

/-!
Verification of `arch/renesas/src/sh1/sh1_initialstate.c` (the initial
execution-context construction primitive of the SH-1 port): a shallow
embedding of `up_initial_state` and the data it touches, followed by
theorems about the construction.

Machine integers are modelled as `Nat` with explicit reduction modulo
`2 ^ 32` wherever the C code performs 32-bit arithmetic (pointer
arithmetic, `uint32_t` casts and additions).  The inline-assembly status
register read `up_getsr()` is treated as an oracle value passed in as a
parameter.  The C function mutates `*tcb` in place and touches nothing
else; the embedding is the corresponding pure function from the old TCB
to the new one.
-/

namespace Sh1

/-- Modelled from the spec: the register-layout header of this port (the
`REG_*` symbolic indices and the slot count `XCPTCONTEXT_REGS`) is not in
the corpus; the spec only requires a fixed-size array of register slots
with fixed, pairwise-distinct symbolic positions for the stack-pointer,
program-counter and status/flags slots, every other slot being
general-purpose.  We fix a concrete layout with exactly those
properties. -/
def XCPTCONTEXT_REGS : Nat := 22

/-- Modelled from the spec: symbolic index of the stack-pointer slot. -/
def REG_SP : Nat := 7

/-- Modelled from the spec: symbolic index of the program-counter slot. -/
def REG_PC : Nat := 20

/-- Modelled from the spec: symbolic index of the status/flags slot. -/
def REG_SR : Nat := 21

/-- The stack-pointer slot as an index into the register array. -/
def spSlot : Fin XCPTCONTEXT_REGS := ⟨REG_SP, by decide⟩

/-- The program-counter slot as an index into the register array. -/
def pcSlot : Fin XCPTCONTEXT_REGS := ⟨REG_PC, by decide⟩

/-- The status/flags slot as an index into the register array. -/
def srSlot : Fin XCPTCONTEXT_REGS := ⟨REG_SR, by decide⟩

/-- 32-bit addition, as performed on `uint32_t` values in the C code. -/
def add32 (a b : Nat) : Nat := (a + b) % 2 ^ 32

/-- 32-bit subtraction `a - b`, as performed on `uint32_t`, `size_t` and
pointer values in the C code (two's-complement wraparound). -/
def sub32 (a b : Nat) : Nat := (a + (2 ^ 32 - b % 2 ^ 32)) % 2 ^ 32

/-- `struct xcptcontext`: the Register Context Image, a fixed-size array
of saved register slots.  `memset(xcp, 0, sizeof(struct xcptcontext))`
corresponds to the constant-zero function. -/
structure XcptContext where
  regs : Fin XCPTCONTEXT_REGS → Nat
deriving DecidableEq

/-- The fields of `struct tcb_s` that `up_initial_state` reads or
writes: the task id `pid`, the entry point `start`, the stack-region
descriptor (`stack_alloc_ptr`, `stack_base_ptr`, `adj_stack_size`) and
the embedded exception context `xcp`. -/
structure TcbS where
  pid : Nat
  start : Nat
  stack_alloc_ptr : Nat
  stack_base_ptr : Nat
  adj_stack_size : Nat
  xcp : XcptContext
deriving DecidableEq

/-- The build-time constants consumed by `up_initial_state`:
`CONFIG_IDLETHREAD_STACKSIZE`, `sizeof(struct task_info_s)`, the
link-time idle-area top `g_idle_topstack`, and the
`CONFIG_SUPPRESS_INTERRUPTS` policy flag. -/
structure BuildConfig where
  CONFIG_IDLETHREAD_STACKSIZE : Nat
  sizeof_task_info : Nat
  g_idle_topstack : Nat
  CONFIG_SUPPRESS_INTERRUPTS : Bool
deriving DecidableEq

/-- Shallow embedding of the preprocessor guard in `sh1_initialstate.c`:
the file contains `#ifdef CONFIG_BUILD_KERNEL` followed by `#error`, so
a configuration with `CONFIG_BUILD_KERNEL` defined is rejected while the
translation unit is compiled; `up_initial_state` itself contains no
branch for that configuration. -/
def buildAccepts (CONFIG_BUILD_KERNEL : Bool) : Bool := ! CONFIG_BUILD_KERNEL

/-- The `if (tcb->pid == 0)` block of `up_initial_state`: the idle
thread's stack descriptor is overridden to the static idle-stack area,
`stack_alloc_ptr = stack_base_ptr = g_idle_topstack -
CONFIG_IDLETHREAD_STACKSIZE` and `adj_stack_size =
CONFIG_IDLETHREAD_STACKSIZE - sizeof(struct task_info_s)`.  Any other
TCB is left untouched by this step. -/
def idle_carveout (c : BuildConfig) (tcb : TcbS) : TcbS :=
  if tcb.pid = 0 then
    { tcb with
      stack_alloc_ptr := sub32 c.g_idle_topstack c.CONFIG_IDLETHREAD_STACKSIZE
      stack_base_ptr := sub32 c.g_idle_topstack c.CONFIG_IDLETHREAD_STACKSIZE
      adj_stack_size := sub32 c.CONFIG_IDLETHREAD_STACKSIZE c.sizeof_task_info }
  else tcb

/-- The register image `up_initial_state` writes into `tcb->xcp.regs`,
for the TCB `tcb1` whose stack descriptor is already resolved: the
`memset` to zero, then `regs[REG_SP] = (uint32_t)stack_base_ptr +
adj_stack_size`, then `regs[REG_PC] = (uint32_t)start`, then
`regs[REG_SR] = up_getsr() | 0x000000f0` under
`CONFIG_SUPPRESS_INTERRUPTS` and `up_getsr() & ~0x000000f0` otherwise
(`~0x000000f0 = 0xffffff0f` on the 32-bit `irqstate_t`). -/
def initial_regs (c : BuildConfig) (sr : Nat) (tcb1 : TcbS) :
    Fin XCPTCONTEXT_REGS → Nat :=
  Function.update
    (Function.update
      (Function.update (fun _ => 0)
        spSlot (add32 tcb1.stack_base_ptr tcb1.adj_stack_size))
      pcSlot (tcb1.start % 2 ^ 32))
    srSlot
    (if c.CONFIG_SUPPRESS_INTERRUPTS then (sr % 2 ^ 32) ||| 0x000000f0
     else (sr % 2 ^ 32) &&& 0xffffff0f)

/-- Shallow embedding of `up_initial_state`.  `sr` is the oracle value
returned by the inline-assembly read `up_getsr()`; `c` holds the
build-time constants.  Steps in source order: the idle-thread stack
carve-out, then the full overwrite of the exception context. -/
def up_initial_state (c : BuildConfig) (sr : Nat) (tcb : TcbS) : TcbS :=
  let tcb1 := idle_carveout c tcb
  { tcb1 with xcp := ⟨initial_regs c sr tcb1⟩ }

/-! ## Basic facts about the embedding -/

theorem add32_eq_add (a b : Nat) (h : a + b < 2 ^ 32) : add32 a b = a + b :=
  Nat.mod_eq_of_lt h

theorem sub32_eq_sub (a b : Nat) (hba : b ≤ a) (ha : a < 2 ^ 32) :
    sub32 a b = a - b := by
  have hb : b % 2 ^ 32 = b := Nat.mod_eq_of_lt (Nat.lt_of_le_of_lt hba ha)
  have h1 : a + (2 ^ 32 - b) = (a - b) + 2 ^ 32 := by omega
  unfold sub32
  rw [hb, h1, Nat.add_mod_right, Nat.mod_eq_of_lt (by omega)]

theorem idle_carveout_of_ne (c : BuildConfig) (tcb : TcbS) (h : tcb.pid ≠ 0) :
    idle_carveout c tcb = tcb := by
  unfold idle_carveout
  rw [if_neg h]

theorem idle_carveout_of_eq (c : BuildConfig) (tcb : TcbS) (h : tcb.pid = 0) :
    idle_carveout c tcb =
      { tcb with
        stack_alloc_ptr := sub32 c.g_idle_topstack c.CONFIG_IDLETHREAD_STACKSIZE
        stack_base_ptr := sub32 c.g_idle_topstack c.CONFIG_IDLETHREAD_STACKSIZE
        adj_stack_size := sub32 c.CONFIG_IDLETHREAD_STACKSIZE c.sizeof_task_info } := by
  unfold idle_carveout
  rw [if_pos h]

theorem idle_carveout_start (c : BuildConfig) (tcb : TcbS) :
    (idle_carveout c tcb).start = tcb.start := by
  unfold idle_carveout
  split <;> rfl

theorem initial_regs_sp (c : BuildConfig) (sr : Nat) (t : TcbS) :
    initial_regs c sr t spSlot = add32 t.stack_base_ptr t.adj_stack_size := by
  unfold initial_regs
  rw [Function.update_noteq (show spSlot ≠ srSlot by decide),
    Function.update_noteq (show spSlot ≠ pcSlot by decide),
    Function.update_same]

theorem initial_regs_pc (c : BuildConfig) (sr : Nat) (t : TcbS) :
    initial_regs c sr t pcSlot = t.start % 2 ^ 32 := by
  unfold initial_regs
  rw [Function.update_noteq (show pcSlot ≠ srSlot by decide),
    Function.update_same]

theorem initial_regs_sr (c : BuildConfig) (sr : Nat) (t : TcbS) :
    initial_regs c sr t srSlot =
      if c.CONFIG_SUPPRESS_INTERRUPTS then (sr % 2 ^ 32) ||| 0x000000f0
      else (sr % 2 ^ 32) &&& 0xffffff0f := by
  unfold initial_regs
  rw [Function.update_same]

theorem initial_regs_other (c : BuildConfig) (sr : Nat) (t : TcbS)
    (i : Fin XCPTCONTEXT_REGS)
    (hsp : i ≠ spSlot) (hpc : i ≠ pcSlot) (hsr : i ≠ srSlot) :
    initial_regs c sr t i = 0 := by
  unfold initial_regs
  rw [Function.update_noteq hsr, Function.update_noteq hpc,
    Function.update_noteq hsp]

theorem up_initial_state_regs (c : BuildConfig) (sr : Nat) (tcb : TcbS) :
    (up_initial_state c sr tcb).xcp.regs =
      initial_regs c sr (idle_carveout c tcb) := rfl

theorem up_initial_state_base (c : BuildConfig) (sr : Nat) (tcb : TcbS) :
    (up_initial_state c sr tcb).stack_base_ptr =
      (idle_carveout c tcb).stack_base_ptr := rfl

theorem up_initial_state_alloc (c : BuildConfig) (sr : Nat) (tcb : TcbS) :
    (up_initial_state c sr tcb).stack_alloc_ptr =
      (idle_carveout c tcb).stack_alloc_ptr := rfl

theorem up_initial_state_adj (c : BuildConfig) (sr : Nat) (tcb : TcbS) :
    (up_initial_state c sr tcb).adj_stack_size =
      (idle_carveout c tcb).adj_stack_size := rfl

example :
    (up_initial_state ⟨0x1000, 0x40, 0x8000, false⟩ 0
      ⟨0, 0x100, 0, 0, 0, ⟨fun _ => 0⟩⟩).xcp.regs spSlot = 0x7fc0 := by decide

example :
    (up_initial_state ⟨0x1000, 0x40, 0x8000, false⟩ 0
      ⟨5, 0x1000, 0x2000, 0x2000, 0x400, ⟨fun _ => 0⟩⟩).xcp.regs spSlot
      = 0x2400 := by decide

/-! ## Claims -/

/-- C1, as stated, is false on the code: with idle-stack size `0x1000`,
auxiliary-block size `0x40` and idle-area top `0x8000`, the resolved
stack does NOT reach the top of the idle area — `stack_base_ptr +
adj_stack_size = 0x7fc0`, not `0x8000`, and the stack-pointer slot is
`0x7fc0`, not `0x8000` (the auxiliary block is carved out of the TOP of
the idle area, not its bottom). -/
theorem C1_counterexample :
    ¬ ((up_initial_state ⟨0x1000, 0x40, 0x8000, false⟩ 0
          ⟨0, 0x100, 0, 0, 0, ⟨fun _ => 0⟩⟩).stack_base_ptr +
        (up_initial_state ⟨0x1000, 0x40, 0x8000, false⟩ 0
          ⟨0, 0x100, 0, 0, 0, ⟨fun _ => 0⟩⟩).adj_stack_size = 0x8000 ∧
       (up_initial_state ⟨0x1000, 0x40, 0x8000, false⟩ 0
          ⟨0, 0x100, 0, 0, 0, ⟨fun _ => 0⟩⟩).xcp.regs spSlot = 0x8000) := by
  decide

/-- C1 (amended): for the idle task (`pid = 0`), after `up_initial_state`
the resolved stack size equals the configured idle-stack size minus the
auxiliary-block size, and the resolved stack ends at the idle-area top
minus the auxiliary-block size: `stack_base_ptr + adj_stack_size =
g_idle_topstack - sizeof(struct task_info_s)`, which is also the value
of the stack-pointer slot; concretely, with idle-stack size `0x1000`,
auxiliary-block size `0x40` and idle-area top `0x8000`, the resolved
stack size is `0xfc0` and the stack-pointer slot is `0x7fc0`. -/
theorem C1_idle_carveout_amended (c : BuildConfig) (sr : Nat) (tcb : TcbS)
    (hpid : tcb.pid = 0)
    (h1 : c.sizeof_task_info ≤ c.CONFIG_IDLETHREAD_STACKSIZE)
    (h2 : c.CONFIG_IDLETHREAD_STACKSIZE ≤ c.g_idle_topstack)
    (h3 : c.g_idle_topstack < 2 ^ 32) :
    (up_initial_state c sr tcb).adj_stack_size
        = c.CONFIG_IDLETHREAD_STACKSIZE - c.sizeof_task_info ∧
    (up_initial_state c sr tcb).stack_base_ptr +
        (up_initial_state c sr tcb).adj_stack_size
        = c.g_idle_topstack - c.sizeof_task_info ∧
    (up_initial_state c sr tcb).xcp.regs spSlot
        = c.g_idle_topstack - c.sizeof_task_info := by
  have hlt : c.CONFIG_IDLETHREAD_STACKSIZE < 2 ^ 32 := Nat.lt_of_le_of_lt h2 h3
  have hbase : (idle_carveout c tcb).stack_base_ptr =
      c.g_idle_topstack - c.CONFIG_IDLETHREAD_STACKSIZE := by
    rw [idle_carveout_of_eq c tcb hpid]
    exact sub32_eq_sub _ _ h2 h3
  have hadj : (idle_carveout c tcb).adj_stack_size =
      c.CONFIG_IDLETHREAD_STACKSIZE - c.sizeof_task_info := by
    rw [idle_carveout_of_eq c tcb hpid]
    exact sub32_eq_sub _ _ h1 hlt
  have hsum : (idle_carveout c tcb).stack_base_ptr +
      (idle_carveout c tcb).adj_stack_size
      = c.g_idle_topstack - c.sizeof_task_info := by
    rw [hbase, hadj]; omega
  refine ⟨?_, ?_, ?_⟩
  · rw [up_initial_state_adj]; exact hadj
  · rw [up_initial_state_base, up_initial_state_adj]; exact hsum
  · rw [up_initial_state_regs, initial_regs_sp]
    have hfits : (idle_carveout c tcb).stack_base_ptr +
        (idle_carveout c tcb).adj_stack_size < 2 ^ 32 := by omega
    rw [add32_eq_add _ _ hfits, hsum]

/-- C1 witness: the amended claim evaluated at the concrete idle
scenario (idle-stack size `0x1000`, auxiliary block `0x40`, idle top
`0x8000`). -/
theorem C1_witness :
    (up_initial_state ⟨0x1000, 0x40, 0x8000, false⟩ 0
        ⟨0, 0x100, 0, 0, 0, ⟨fun _ => 0⟩⟩).adj_stack_size = 0xfc0 ∧
    (up_initial_state ⟨0x1000, 0x40, 0x8000, false⟩ 0
        ⟨0, 0x100, 0, 0, 0, ⟨fun _ => 0⟩⟩).stack_base_ptr +
      (up_initial_state ⟨0x1000, 0x40, 0x8000, false⟩ 0
        ⟨0, 0x100, 0, 0, 0, ⟨fun _ => 0⟩⟩).adj_stack_size = 0x7fc0 ∧
    (up_initial_state ⟨0x1000, 0x40, 0x8000, false⟩ 0
        ⟨0, 0x100, 0, 0, 0, ⟨fun _ => 0⟩⟩).xcp.regs spSlot = 0x7fc0 :=
  C1_idle_carveout_amended ⟨0x1000, 0x40, 0x8000, false⟩ 0
    ⟨0, 0x100, 0, 0, 0, ⟨fun _ => 0⟩⟩ rfl (by decide) (by decide) (by decide)

/-- C2: after `up_initial_state`, every slot of the Register Context
Image other than the stack-pointer, program-counter and status/flags
slots equals zero, for every TCB, status-register value and
configuration. -/
theorem C2_zero_invariant (c : BuildConfig) (sr : Nat) (tcb : TcbS)
    (i : Fin XCPTCONTEXT_REGS)
    (hsp : i ≠ spSlot) (hpc : i ≠ pcSlot) (hsr : i ≠ srSlot) :
    (up_initial_state c sr tcb).xcp.regs i = 0 := by
  rw [up_initial_state_regs]
  exact initial_regs_other c sr _ i hsp hpc hsr

/-- C2 witness: slot 0 (a general-purpose slot) of a concretely
constructed image is zero, even though the prior image content was
nonzero. -/
theorem C2_witness :
    (up_initial_state ⟨0x1000, 0x40, 0x8000, true⟩ 7
      ⟨5, 0x1000, 0x2000, 0x2000, 0x400, ⟨fun _ => 9⟩⟩).xcp.regs
        ⟨0, by decide⟩ = 0 :=
  C2_zero_invariant ⟨0x1000, 0x40, 0x8000, true⟩ 7
    ⟨5, 0x1000, 0x2000, 0x2000, 0x400, ⟨fun _ => 9⟩⟩ ⟨0, by decide⟩
    (by decide) (by decide) (by decide)

/-- C3: after `up_initial_state`, the stack-pointer slot equals
`stack_base_ptr + adj_stack_size` of the resolved TCB (the values in
effect after any idle-task override), whenever that sum fits in 32 bits
(as it always does for the 32-bit pointers and sizes of this target). -/
theorem C3_stack_top_fidelity (c : BuildConfig) (sr : Nat) (tcb : TcbS)
    (h : (up_initial_state c sr tcb).stack_base_ptr +
      (up_initial_state c sr tcb).adj_stack_size < 2 ^ 32) :
    (up_initial_state c sr tcb).xcp.regs spSlot =
      (up_initial_state c sr tcb).stack_base_ptr +
        (up_initial_state c sr tcb).adj_stack_size := by
  rw [up_initial_state_regs, initial_regs_sp, up_initial_state_base,
    up_initial_state_adj] at *
  exact add32_eq_add _ _ h

/-- C3 witness: for a non-idle TCB with base `0x2000` and size `0x400`,
the stack-pointer slot is `0x2000 + 0x400`. -/
theorem C3_witness :
    (up_initial_state ⟨0x1000, 0x40, 0x8000, false⟩ 0
        ⟨5, 0x1000, 0x2000, 0x2000, 0x400, ⟨fun _ => 0⟩⟩).xcp.regs spSlot =
      (up_initial_state ⟨0x1000, 0x40, 0x8000, false⟩ 0
        ⟨5, 0x1000, 0x2000, 0x2000, 0x400, ⟨fun _ => 0⟩⟩).stack_base_ptr +
      (up_initial_state ⟨0x1000, 0x40, 0x8000, false⟩ 0
        ⟨5, 0x1000, 0x2000, 0x2000, 0x400, ⟨fun _ => 0⟩⟩).adj_stack_size :=
  C3_stack_top_fidelity ⟨0x1000, 0x40, 0x8000, false⟩ 0
    ⟨5, 0x1000, 0x2000, 0x2000, 0x400, ⟨fun _ => 0⟩⟩ (by decide)

/-- C4: after `up_initial_state`, the program-counter slot equals the
TCB's entry point `start`, for every task id including zero (`start` is
a 32-bit code address on this target). -/
theorem C4_entry_point_fidelity (c : BuildConfig) (sr : Nat) (tcb : TcbS)
    (h : tcb.start < 2 ^ 32) :
    (up_initial_state c sr tcb).xcp.regs pcSlot = tcb.start := by
  rw [up_initial_state_regs, initial_regs_pc, idle_carveout_start]
  exact Nat.mod_eq_of_lt h

/-- C4 witness: the program-counter slot of the idle task (`pid = 0`)
equals its entry point `0x100`. -/
theorem C4_witness :
    (up_initial_state ⟨0x1000, 0x40, 0x8000, false⟩ 0
      ⟨0, 0x100, 0, 0, 0, ⟨fun _ => 3⟩⟩).xcp.regs pcSlot = 0x100 :=
  C4_entry_point_fidelity ⟨0x1000, 0x40, 0x8000, false⟩ 0
    ⟨0, 0x100, 0, 0, 0, ⟨fun _ => 3⟩⟩ (by decide)

/-- C5: after `up_initial_state`, the status/flags slot equals the live
`up_getsr()` value with the interrupt-mask bits `0x000000f0` OR'd in
when `CONFIG_SUPPRESS_INTERRUPTS` is selected, and AND'd out
(`& ~0x000000f0`, i.e. `& 0xffffff0f` on the 32-bit `irqstate_t`)
otherwise. -/
theorem C5_interrupt_policy (c : BuildConfig) (sr : Nat) (tcb : TcbS)
    (h : sr < 2 ^ 32) :
    (up_initial_state c sr tcb).xcp.regs srSlot =
      if c.CONFIG_SUPPRESS_INTERRUPTS then sr ||| 0x000000f0
      else sr &&& 0xffffff0f := by
  rw [up_initial_state_regs, initial_regs_sr, Nat.mod_eq_of_lt h]

/-- C5 witness: both policy settings evaluated at `sr = 0x11`: starting
masked yields `0x11 ||| 0xf0 = 0xf1`; starting unmasked yields
`0x11 &&& 0xffffff0f = 0x1`. -/
theorem C5_witness :
    ((up_initial_state ⟨0x1000, 0x40, 0x8000, true⟩ 0x11
        ⟨5, 0x1000, 0x2000, 0x2000, 0x400, ⟨fun _ => 0⟩⟩).xcp.regs srSlot =
      if (BuildConfig.mk 0x1000 0x40 0x8000 true).CONFIG_SUPPRESS_INTERRUPTS
      then 0x11 ||| 0x000000f0 else 0x11 &&& 0xffffff0f) ∧
    ((up_initial_state ⟨0x1000, 0x40, 0x8000, false⟩ 0x11
        ⟨5, 0x1000, 0x2000, 0x2000, 0x400, ⟨fun _ => 0⟩⟩).xcp.regs srSlot =
      if (BuildConfig.mk 0x1000 0x40 0x8000 false).CONFIG_SUPPRESS_INTERRUPTS
      then 0x11 ||| 0x000000f0 else 0x11 &&& 0xffffff0f) :=
  ⟨C5_interrupt_policy ⟨0x1000, 0x40, 0x8000, true⟩ 0x11
      ⟨5, 0x1000, 0x2000, 0x2000, 0x400, ⟨fun _ => 0⟩⟩ (by decide),
   C5_interrupt_policy ⟨0x1000, 0x40, 0x8000, false⟩ 0x11
      ⟨5, 0x1000, 0x2000, 0x2000, 0x400, ⟨fun _ => 0⟩⟩ (by decide)⟩

/-- C6: a configuration with `CONFIG_BUILD_KERNEL` defined is rejected
when the translation unit is compiled (the `#ifdef CONFIG_BUILD_KERNEL`
block is a hard `#error`), and only configurations without it are
accepted; `up_initial_state` itself contains no branch for that
configuration, so there is no runtime fallback path. -/
theorem C6_kernel_build_rejected :
    buildAccepts true = false ∧ buildAccepts false = true := by
  decide

/-- C7: `up_initial_state` is deterministic and independent of prior
image content: two non-idle TCBs with the same entry point and the same
resolved stack-region values, under the same configuration and the same
`up_getsr()` value, receive bit-identical Register Context Images,
whatever the prior content of either image (and whatever their
`stack_alloc_ptr` or pids). -/
theorem C7_deterministic (c : BuildConfig) (sr : Nat) (t1 t2 : TcbS)
    (hp1 : t1.pid ≠ 0) (hp2 : t2.pid ≠ 0)
    (hstart : t1.start = t2.start)
    (hbase : t1.stack_base_ptr = t2.stack_base_ptr)
    (hsize : t1.adj_stack_size = t2.adj_stack_size) :
    (up_initial_state c sr t1).xcp = (up_initial_state c sr t2).xcp := by
  show XcptContext.mk (initial_regs c sr (idle_carveout c t1)) =
    XcptContext.mk (initial_regs c sr (idle_carveout c t2))
  rw [idle_carveout_of_ne c t1 hp1, idle_carveout_of_ne c t2 hp2]
  unfold initial_regs
  rw [hstart, hbase, hsize]

/-- C7 witness: two non-idle TCBs agreeing on entry point, base and
size, but differing in pid, `stack_alloc_ptr` and prior image content,
receive equal images. -/
theorem C7_witness :
    (up_initial_state ⟨0x1000, 0x40, 0x8000, false⟩ 0x11
        ⟨5, 0x1000, 0x2000, 0x2000, 0x400, ⟨fun _ => 0xdead⟩⟩).xcp =
    (up_initial_state ⟨0x1000, 0x40, 0x8000, false⟩ 0x11
        ⟨6, 0x1000, 0x2400, 0x2000, 0x400, ⟨fun i => i.val⟩⟩).xcp :=
  C7_deterministic ⟨0x1000, 0x40, 0x8000, false⟩ 0x11
    ⟨5, 0x1000, 0x2000, 0x2000, 0x400, ⟨fun _ => 0xdead⟩⟩
    ⟨6, 0x1000, 0x2400, 0x2000, 0x400, ⟨fun i => i.val⟩⟩
    (by decide) (by decide) rfl rfl rfl

/-- C8: for a non-idle TCB (`pid ≠ 0`), `up_initial_state` changes only
the embedded exception context: the result is the input TCB with only
`xcp` replaced, so `pid`, `start`, `stack_alloc_ptr`, `stack_base_ptr`
and `adj_stack_size` are untouched (and, the embedding being a pure
function of the TCB, no state outside the TCB is written at all). -/
theorem C8_frame (c : BuildConfig) (sr : Nat) (tcb : TcbS)
    (h : tcb.pid ≠ 0) :
    up_initial_state c sr tcb =
      { tcb with xcp := (up_initial_state c sr tcb).xcp } := by
  have hx : up_initial_state c sr tcb =
      { idle_carveout c tcb with
        xcp := ⟨initial_regs c sr (idle_carveout c tcb)⟩ } := rfl
  rw [hx, idle_carveout_of_ne c tcb h]

/-- C8 witness: a concrete non-idle TCB keeps its pid, entry point and
stack-region fields. -/
theorem C8_witness :
    up_initial_state ⟨0x1000, 0x40, 0x8000, false⟩ 0x11
        ⟨5, 0x1000, 0x2000, 0x2000, 0x400, ⟨fun _ => 0xdead⟩⟩ =
      { TcbS.mk 5 0x1000 0x2000 0x2000 0x400 ⟨fun _ => 0xdead⟩ with
        xcp := (up_initial_state ⟨0x1000, 0x40, 0x8000, false⟩ 0x11
          ⟨5, 0x1000, 0x2000, 0x2000, 0x400, ⟨fun _ => 0xdead⟩⟩).xcp } :=
  C8_frame ⟨0x1000, 0x40, 0x8000, false⟩ 0x11
    ⟨5, 0x1000, 0x2000, 0x2000, 0x400, ⟨fun _ => 0xdead⟩⟩ (by decide)

/-- C9: `up_initial_state` is total: for every configuration,
status-register value and TCB there is exactly one resulting TCB, and
that result already carries the fully constructed image (entry point in
the program-counter slot, resolved stack top in the stack-pointer slot)
— there is no error path and no partial-failure state. -/
theorem C9_total (c : BuildConfig) (sr : Nat) (tcb : TcbS) :
    ∃! t : TcbS, up_initial_state c sr tcb = t ∧
      t.xcp.regs pcSlot = tcb.start % 2 ^ 32 ∧
      t.xcp.regs spSlot = add32 t.stack_base_ptr t.adj_stack_size := by
  refine ⟨up_initial_state c sr tcb, ⟨rfl, ?_, ?_⟩, ?_⟩
  · rw [up_initial_state_regs, initial_regs_pc, idle_carveout_start]
  · rw [up_initial_state_regs, initial_regs_sp, up_initial_state_base,
      up_initial_state_adj]
  · intro t ht
    exact ht.1.symm

/-- C10: for the idle task (`pid = 0`), `up_initial_state` sets
`stack_alloc_ptr` and `stack_base_ptr` both to `g_idle_topstack -
CONFIG_IDLETHREAD_STACKSIZE`, and the stack-pointer slot ends up at
`g_idle_topstack - sizeof(struct task_info_s)`: the reserved auxiliary
block lies at the top of the idle area, between the initial stack
pointer and `g_idle_topstack`. -/
theorem C10_idle_layout (c : BuildConfig) (sr : Nat) (tcb : TcbS)
    (hpid : tcb.pid = 0)
    (h1 : c.sizeof_task_info ≤ c.CONFIG_IDLETHREAD_STACKSIZE)
    (h2 : c.CONFIG_IDLETHREAD_STACKSIZE ≤ c.g_idle_topstack)
    (h3 : c.g_idle_topstack < 2 ^ 32) :
    (up_initial_state c sr tcb).stack_alloc_ptr
        = c.g_idle_topstack - c.CONFIG_IDLETHREAD_STACKSIZE ∧
    (up_initial_state c sr tcb).stack_base_ptr
        = c.g_idle_topstack - c.CONFIG_IDLETHREAD_STACKSIZE ∧
    (up_initial_state c sr tcb).xcp.regs spSlot
        = c.g_idle_topstack - c.sizeof_task_info := by
  have hlt : c.CONFIG_IDLETHREAD_STACKSIZE < 2 ^ 32 := Nat.lt_of_le_of_lt h2 h3
  have hbase : (idle_carveout c tcb).stack_base_ptr =
      c.g_idle_topstack - c.CONFIG_IDLETHREAD_STACKSIZE := by
    rw [idle_carveout_of_eq c tcb hpid]
    exact sub32_eq_sub _ _ h2 h3
  have halloc : (idle_carveout c tcb).stack_alloc_ptr =
      c.g_idle_topstack - c.CONFIG_IDLETHREAD_STACKSIZE := by
    rw [idle_carveout_of_eq c tcb hpid]
    exact sub32_eq_sub _ _ h2 h3
  have hadj : (idle_carveout c tcb).adj_stack_size =
      c.CONFIG_IDLETHREAD_STACKSIZE - c.sizeof_task_info := by
    rw [idle_carveout_of_eq c tcb hpid]
    exact sub32_eq_sub _ _ h1 hlt
  refine ⟨?_, ?_, ?_⟩
  · rw [up_initial_state_alloc]; exact halloc
  · rw [up_initial_state_base]; exact hbase
  · rw [up_initial_state_regs, initial_regs_sp]
    have hfits : (idle_carveout c tcb).stack_base_ptr +
        (idle_carveout c tcb).adj_stack_size < 2 ^ 32 := by omega
    rw [add32_eq_add _ _ hfits, hbase, hadj]
    omega

/-- C10 witness: with idle-stack size `0x1000`, auxiliary block `0x40`
and idle top `0x8000`, alloc and base pointers are `0x7000` and the
stack-pointer slot is `0x8000 - 0x40` (= `0x7fc0`). -/
theorem C10_witness :
    (up_initial_state ⟨0x1000, 0x40, 0x8000, true⟩ 0x11
        ⟨0, 0x200, 1, 2, 3, ⟨fun _ => 4⟩⟩).stack_alloc_ptr = 0x7000 ∧
    (up_initial_state ⟨0x1000, 0x40, 0x8000, true⟩ 0x11
        ⟨0, 0x200, 1, 2, 3, ⟨fun _ => 4⟩⟩).stack_base_ptr = 0x7000 ∧
    (up_initial_state ⟨0x1000, 0x40, 0x8000, true⟩ 0x11
        ⟨0, 0x200, 1, 2, 3, ⟨fun _ => 4⟩⟩).xcp.regs spSlot = 0x7fc0 :=
  C10_idle_layout ⟨0x1000, 0x40, 0x8000, true⟩ 0x11
    ⟨0, 0x200, 1, 2, 3, ⟨fun _ => 4⟩⟩ rfl (by decide) (by decide) (by decide)

end Sh1
